import Mathlib

/-!
# Verification of the client-side data-orchestration and visualization layer

Shallow embedding of the core logic of a Nuxt/Vue soccer-analytics dashboard:

* the Pitch Renderer (`PitchMap.vue`): outcome classification, colour choice,
  and shape/render-mode selection;
* the Player Analysis Orchestrator (`PlayerMode.vue`): fallback visualization
  synthesis, critical-moment sorting, performance breakdown derivation, and
  the players-list fetch success handler;
* the Analytics Tab Controller (the tab component shipped alongside
  `nuxt.config.ts`): the per-tab fetch-on-demand cache keyed by match id;
* the Data Manager (`DataManager.vue`): stage grouping of the match list.

JavaScript numbers are modelled as `ℚ` (all arithmetic in scope is exact),
ids / counters / minutes as `ℕ`, optional fields as `Option`, and JS arrays
as `List`.  Truthiness tests on strings (`s || d`) are modelled by `jsOr`.
-/

namespace ICHack

/-- JS `s || d` for strings: the empty string is falsy. -/
def jsOr (s d : String) : String := if s = "" then d else s

/-- JS `o || d` for an optional string (`undefined` and `""` are falsy). -/
def jsOrOpt (o : Option String) (d : String) : String :=
  match o with
  | some s => jsOr s d
  | none => d

/-- JS `String.prototype.toLowerCase`, character by character (all strings
compared after lowering in this codebase are ASCII, where the two agree). -/
def toLowerCaseJs (s : String) : String := ⟨s.data.map Char.toLower⟩

/-! ## Pitch Renderer (`PitchMap.vue`) -/

/-- The `PitchVizData` record consumed by the renderer (all fields optional in
the component's `PitchVizData` interface).  Coordinate pairs are JS arrays of
numbers, so they are modelled as `List ℚ`; presence (truthiness) is what the
renderer's guards test, and only `coords` has its length inspected. -/
structure PitchVizData where
  action_type : Option String
  player_name : Option String
  start_coords : Option (List ℚ)
  end_coords : Option (List ℚ)
  coords : Option (List ℚ)
  outcome : Option String
  team_color : Option String
deriving DecidableEq, Repr

/-- A `{x, y, type}` position sample (`PlayerPosition` interface). -/
structure PlayerPosition where
  x : ℚ
  y : ℚ
  type : String
deriving DecidableEq, Repr

/-- Outcomes coloured green: `["goal", "complete", "won", "success"]`. -/
def successOutcomes : List String := ["goal", "complete", "won", "success"]

/-- Outcomes coloured red. -/
def failureOutcomes : List String :=
  ["incomplete", "missed", "lost", "out", "pass offside", "unknown", "fail", "failed"]

/-- Outcomes coloured blue: `["saved", "blocked"]`. -/
def neutralOutcomes : List String := ["saved", "blocked"]

/-- `actionColor` computed of `PitchMap.vue` (lines 52-64): lower-case the
outcome, then green / red / blue by list membership, team colour or default
teal for an empty outcome, and red as the catch-all. -/
def actionColor (activeAction : Option PitchVizData) : String :=
  match activeAction with
  | none => "#666"
  | some a =>
    let outcome := toLowerCaseJs (jsOrOpt a.outcome "")
    if successOutcomes.contains outcome then "#22c55e"
    else if failureOutcomes.contains outcome then "#ef4444"
    else if neutralOutcomes.contains outcome then "#3b82f6"
    else if outcome = "" then jsOrOpt a.team_color "#06b6d4"
    else "#ef4444"

/-- `isSuccess` computed of `PitchMap.vue` (lines 66-70). -/
def isSuccess (activeAction : Option PitchVizData) : Bool :=
  match activeAction with
  | none => true
  | some a => successOutcomes.contains (toLowerCaseJs (jsOrOpt a.outcome ""))

/-- Action types rendered as movement: `["pass", "carry", "dribble"]`. -/
def movementTypes : List String := ["pass", "carry", "dribble"]

/-- Action types always rendered as a point: `["shot", "defense"]`. -/
def pointTypes : List String := ["shot", "defense"]

/-- `hasMovement` computed of `PitchMap.vue` (lines 72-76). -/
def hasMovement (activeAction : Option PitchVizData) : Bool :=
  match activeAction with
  | none => false
  | some a =>
    a.start_coords.isSome && a.end_coords.isSome
      && movementTypes.contains (jsOrOpt a.action_type "")

/-- `isPointAction` computed of `PitchMap.vue` (lines 78-85). -/
def isPointAction (activeAction : Option PitchVizData) : Bool :=
  match activeAction with
  | none => false
  | some a =>
    if pointTypes.contains (jsOrOpt a.action_type "") then true
    else if a.action_type == some "dribble" && a.coords.isSome then true
    else if a.coords.isSome && !(a.start_coords.isSome && a.end_coords.isSome) then true
    else false

/-- `hasDrawableCoords` computed of `PitchMap.vue` (lines 87-91). -/
def hasDrawableCoords (activeAction : Option PitchVizData) : Bool :=
  match activeAction with
  | none => false
  | some a =>
    (a.start_coords.isSome && a.end_coords.isSome)
      || (a.coords.isSome && decide (2 ≤ (a.coords.getD []).length))

/-- Which of the three mutually exclusive template branches of `PitchMap.vue`
renders the active action. -/
inductive RenderMode where
  | movement
  | point
  | emptyState (caption : String)
deriving DecidableEq, Repr

/-- The `v-if` / `v-else-if` / `v-else` chain of the `PitchMap.vue` template
(lines 232, 277, 286-297): movement when `hasMovement` and both coordinate
pairs are present, else point when `isPointAction` and a `coords` of length
at least two is present, else the empty-state caption (which depends on
whether `allPositions` is non-empty). -/
def renderMode (activeAction : Option PitchVizData) (allPositions : List PlayerPosition) :
    RenderMode :=
  if hasMovement activeAction
      && (activeAction.bind (·.start_coords)).isSome
      && (activeAction.bind (·.end_coords)).isSome then
    .movement
  else if isPointAction activeAction
      && (activeAction.bind (·.coords)).isSome
      && decide (2 ≤ ((activeAction.bind (·.coords)).getD []).length) then
    .point
  else
    .emptyState (if allPositions.length > 0 then "Click a moment below" else "Select a player")

/-! ## Player Analysis Orchestrator (`PlayerMode.vue`) -/

/-- A notable moment of a player analysis (`Moment` interface; the fields not
used by the modelled logic — video url/time and period — are omitted).
Minutes are match minutes, hence `ℕ` (so the source's `moment.minute || 0`
guard is the identity). -/
structure Moment where
  time_display : String
  event_type : String
  description : String
  highlight_score : ℚ
  value_added : ℚ
  minute : ℕ
  pitch_viz_data : Option PitchVizData
deriving DecidableEq, Repr

/-- Aggregated player stats (`PlayerStats` interface; optional extras that the
modelled logic never reads are omitted). -/
structure PlayerStats where
  name : String
  total_highlight_score : ℚ
  total_value_added : ℚ
  total_actions : ℕ
  positive_contributions : ℕ
  negative_contributions : ℕ
  highlights_count : ℕ
  lowlights_count : ℕ
  pass_accuracy : String
  shots : ℕ
  goals : ℕ
deriving DecidableEq, Repr

/-- A player analysis payload (`PlayerAnalysis` interface, core fields). -/
structure PlayerAnalysis where
  player_name : String
  stats : PlayerStats
  top_highlights : List Moment
  areas_for_improvement : List Moment
  all_positions : List PlayerPosition
deriving DecidableEq, Repr

/-- `makeFallbackVizData` of `PlayerMode.vue` (lines 332-345): synthesize a
`PitchVizData` for a moment without one.  The optional `impact` tag that
`criticalMoments` spreads onto a moment is passed as a separate argument. -/
def makeFallbackVizData (allPositions : List PlayerPosition) (impact : Option String)
    (m : Moment) : PitchVizData :=
  let idx := m.minute % max 1 allPositions.length
  let pos := (allPositions.get? idx).getD ⟨60, 40, "Pass"⟩
  let isPositive := (impact == some "positive") || decide (m.highlight_score > 0)
  { action_type := some "other"
    player_name := some (jsOr m.event_type "Action")
    start_coords := none
    end_coords := none
    coords := some [pos.x, pos.y]
    outcome := some (if isPositive then "complete" else "incomplete")
    team_color := some (if isPositive then "#22c55e" else "#ef4444") }

/-- A moment as tagged by the `criticalMoments` computed: the spread
`{...moment, impact, xTGained/xTLost}`. -/
structure CriticalMoment where
  moment : Moment
  impact : String
  xTGained : Option ℚ
  xTLost : Option ℚ
deriving DecidableEq, Repr

/-- The highlight tagging of `criticalMoments`: `impact = "positive"`,
`xTGained = value_added`. -/
def tagHighlight (h : Moment) : CriticalMoment :=
  { moment := h, impact := "positive", xTGained := some h.value_added, xTLost := none }

/-- The lowlight tagging of `criticalMoments`: `impact = "negative"`,
`xTLost = value_added`. -/
def tagLowlight (l : Moment) : CriticalMoment :=
  { moment := l, impact := "negative", xTLost := some l.value_added, xTGained := none }

/-- `criticalMoments` computed of `PlayerMode.vue` (lines 219-236): tag the
highlights positive and the lowlights negative, concatenate, and stable-sort
with the JS comparator `(a, b) => b.minute - a.minute` (a stays before b iff
`b.minute ≤ a.minute`; `Array.prototype.sort` is stable, as is `mergeSort`). -/
def criticalMoments (analysis : Option PlayerAnalysis) : List CriticalMoment :=
  match analysis with
  | none => []
  | some a =>
    let highlights := a.top_highlights.map tagHighlight
    let lowlights := a.areas_for_improvement.map tagLowlight
    (highlights ++ lowlights).mergeSort fun x y =>
      decide (y.moment.minute ≤ x.moment.minute)

/-- JS `parseInt(s, 10)`: skip leading whitespace, read an optional sign and
then the maximal run of decimal digits; `NaN` (no digits) is `none`. -/
def parseIntJs (s : String) : Option Int :=
  let cs := s.data.dropWhile fun c => c == ' ' || c == '\t' || c == '\n' || c == '\r'
  let signAndRest : Int × List Char :=
    match cs with
    | '-' :: r => (-1, r)
    | '+' :: r => (1, r)
    | r => (1, r)
  let ds := signAndRest.2.takeWhile (·.isDigit)
  if ds.isEmpty then none
  else some (signAndRest.1 * (ds.foldl (fun n c => 10 * n + (c.toNat - '0'.toNat)) 0 : ℕ))

/-- The record produced by the `performanceBreakdown` computed. -/
structure PerformanceBreakdown where
  positiveImpact : ℚ
  ballRetention : ℚ
  passReliability : Option ℚ
  highlightDensity : ℚ
  netValue : ℚ
deriving DecidableEq, Repr

/-- `performanceBreakdown` computed of `PlayerMode.vue` (lines 201-216):
`none` without an analysis; otherwise five derived scores.  `total` is
`total_actions || 1`, `hasPassData` is `pass_accuracy && pass_accuracy !==
"N/A"`, and `passPct` is `parseInt(pass_accuracy, 10) || 0` when pass data is
available, else `null`. -/
def performanceBreakdown (analysis : Option PlayerAnalysis) : Option PerformanceBreakdown :=
  match analysis with
  | none => none
  | some a =>
    let stats := a.stats
    let total : ℚ := if stats.total_actions = 0 then 1 else (stats.total_actions : ℚ)
    let hasPassData := stats.pass_accuracy ≠ "" && stats.pass_accuracy ≠ "N/A"
    let passPct : Option Int :=
      if hasPassData then some ((parseIntJs stats.pass_accuracy).getD 0) else none
    some
      { positiveImpact := min 10 ((stats.positive_contributions : ℚ) / total * 10)
        ballRetention := max 0 (10 - (stats.negative_contributions : ℚ) / total * 10)
        passReliability := passPct.map fun p => (p : ℚ) / 10
        highlightDensity := min 10 ((stats.highlights_count : ℚ) / total * 25)
        netValue := min 10 (max 0 ((stats.total_value_added + 2) / (7 / 10 : ℚ))) }

/-- A player of the players-list payload (`PlayerInfo` interface). -/
structure PlayerInfo where
  player_id : ℕ
  player_name : String
  player_nickname : Option String
  jersey_number : ℕ
  team : String
  position : Option String
deriving DecidableEq, Repr

/-- The JSON payload of a successful `/api/players` response, as read by
`fetchPlayers` (its `players` and `teams` fields). -/
structure PlayersPayload where
  players : List PlayerInfo
  teams : List String
deriving DecidableEq, Repr

/-- The orchestrator state that `fetchPlayers` touches. -/
structure PlayerModeState where
  players : List PlayerInfo
  selectedPlayerName : String
  selectedTeam : String
deriving DecidableEq, Repr

/-- The success branch of `fetchPlayers` in `PlayerMode.vue` (lines 267-276):
store the players, then look up the first player of the first team
(`data.teams?.[0]`; `find` on `p.team === firstTeam`) and, if found, select
that player and set the team filter — with no regard to any existing
selection.  An empty `teams` list makes `firstTeam` undefined, so no player
matches and the selection is untouched. -/
def onPlayersFetchSuccess (st : PlayerModeState) (data : PlayersPayload) : PlayerModeState :=
  let st1 := { st with players := data.players }
  match data.teams.head? with
  | none => st1
  | some firstTeam =>
    match data.players.find? fun p => p.team == firstTeam with
    | none => st1
    | some firstPlayer =>
      { st1 with selectedPlayerName := firstPlayer.player_name, selectedTeam := firstTeam }

/-! ## Analytics Tab Controller (tab component beside `nuxt.config.ts`) -/

/-- The six analytics tabs. -/
inductive AnalyticsTab where
  | momentum
  | score
  | setpieces
  | passing
  | pressing
  | substitutions
deriving DecidableEq, Repr

/-- A network request one of the six fetch functions issues, with the query
parameters it hard-codes. -/
inductive ApiRequest where
  | momentum (matchId : ℕ) (intervalMinutes : ℕ)
  | scoreImpact (matchId : ℕ)
  | setPieces (matchId : ℕ)
  | passingNetwork (matchId : ℕ) (team : String) (minPasses : ℕ)
  | pressing (matchId : ℕ)
  | substitutions (matchId : ℕ)
deriving DecidableEq, Repr

/-- The controller's reactive state: active tab, the `matchId` prop, the
`teams` prop, the selected team, and the six `ref<any>(null)` cache slots.
The slots hold opaque JSON payloads, so the payload type is a parameter. -/
structure TabState (α : Type) where
  activeTab : AnalyticsTab
  matchId : Option ℕ
  teams : List String
  selectedTeam : String
  momentumData : Option α
  scoreImpactData : Option α
  setPieceData : Option α
  passingNetworkData : Option α
  pressingData : Option α
  substitutionData : Option α
deriving DecidableEq, Repr

/-- The cache slot belonging to a tab. -/
def slotOf {α : Type} (st : TabState α) : AnalyticsTab → Option α
  | .momentum => st.momentumData
  | .score => st.scoreImpactData
  | .setpieces => st.setPieceData
  | .passing => st.passingNetworkData
  | .pressing => st.pressingData
  | .substitutions => st.substitutionData

/-- The request `fetchMomentum` issues: none when the guard
`if (!props.matchId) return` fires — in JS both `null` and `0` are falsy —
else the momentum endpoint with `interval_minutes=5`. -/
def fetchMomentumReq {α : Type} (st : TabState α) : List ApiRequest :=
  match st.matchId with
  | none => []
  | some m => if m = 0 then [] else [.momentum m 5]

/-- The request `fetchScoreImpact` issues (same falsy `matchId` guard). -/
def fetchScoreImpactReq {α : Type} (st : TabState α) : List ApiRequest :=
  match st.matchId with
  | none => []
  | some m => if m = 0 then [] else [.scoreImpact m]

/-- The request `fetchSetPieces` issues (same falsy `matchId` guard). -/
def fetchSetPiecesReq {α : Type} (st : TabState α) : List ApiRequest :=
  match st.matchId with
  | none => []
  | some m => if m = 0 then [] else [.setPieces m]

/-- The request `fetchPassingNetwork` issues (same falsy `matchId` guard);
the team is `selectedTeam.value || props.teams[0] || ''` and `min_passes=2`. -/
def fetchPassingNetworkReq {α : Type} (st : TabState α) : List ApiRequest :=
  match st.matchId with
  | none => []
  | some m =>
    if m = 0 then []
    else [.passingNetwork m (jsOr st.selectedTeam (st.teams.headD "")) 2]

/-- The request `fetchPressing` issues (same falsy `matchId` guard). -/
def fetchPressingReq {α : Type} (st : TabState α) : List ApiRequest :=
  match st.matchId with
  | none => []
  | some m => if m = 0 then [] else [.pressing m]

/-- The request `fetchSubstitutions` issues (same falsy `matchId` guard). -/
def fetchSubstitutionsReq {α : Type} (st : TabState α) : List ApiRequest :=
  match st.matchId with
  | none => []
  | some m => if m = 0 then [] else [.substitutions m]

/-- The `watch(activeTab)` handler (tab component, lines 110-117): after the
tab switches, fetch the tab's dataset only when its slot is still null.
Returns the new state and the requests issued. -/
def onActiveTabChange {α : Type} (st : TabState α) (tab : AnalyticsTab) :
    TabState α × List ApiRequest :=
  let st' := { st with activeTab := tab }
  let reqs :=
    match tab with
    | .momentum => if st'.momentumData.isNone then fetchMomentumReq st' else []
    | .score => if st'.scoreImpactData.isNone then fetchScoreImpactReq st' else []
    | .setpieces => if st'.setPieceData.isNone then fetchSetPiecesReq st' else []
    | .passing => if st'.passingNetworkData.isNone then fetchPassingNetworkReq st' else []
    | .pressing => if st'.pressingData.isNone then fetchPressingReq st' else []
    | .substitutions => if st'.substitutionData.isNone then fetchSubstitutionsReq st' else []
  (st', reqs)

/-- Null out all six cache slots (the body of the match-id watcher before its
`fetchMomentum()` call). -/
def clearAllSlots {α : Type} (st : TabState α) : TabState α :=
  { st with
    momentumData := none
    scoreImpactData := none
    setPieceData := none
    passingNetworkData := none
    pressingData := none
    substitutionData := none }

/-- The `watch(() => props.matchId)` handler (tab component, lines 119-128):
by the time the watcher runs the prop already holds the new match id; the
handler nulls all six slots and calls `fetchMomentum()`.  Returns the new
state and the requests issued. -/
def onMatchIdChange {α : Type} (st : TabState α) (newMatchId : Option ℕ) :
    TabState α × List ApiRequest :=
  let st' := clearAllSlots { st with matchId := newMatchId }
  (st', fetchMomentumReq st')

/-! ## Data Manager (`DataManager.vue`) -/

/-- Cached-data status of one match (`MatchStatus` interface). -/
structure MatchStatus where
  match_id : ℕ
  match_title : String
  label : String
  stage : String
  date : Option String
  teams : List String
  has_events : Bool
  has_lineups : Bool
  is_complete : Bool
  events_size_kb : ℚ
  lineups_size_kb : ℚ
  total_size_kb : ℚ
deriving DecidableEq, Repr

/-- The `/api/data/status` payload (`DataStatus` interface). -/
structure DataStatus where
  competition : String
  competition_name : String
  total_matches : ℕ
  cached_matches : ℕ
  missing_matches : ℕ
  statsbomb_available : Bool
  all_teams : List String
  matches' : List MatchStatus
deriving DecidableEq, Repr

/-- `filteredMatches` computed of `DataManager.vue` (lines 79-88): empty when
no status was loaded; otherwise the matches, narrowed to the complete ones
when the cached-only filter is on.  (The team filter is applied server-side
in `loadStatus`, not here.) -/
def filteredMatches (dataStatus : Option DataStatus) (showOnlyCached : Bool) :
    List MatchStatus :=
  match dataStatus with
  | none => []
  | some d => if showOnlyCached then d.matches'.filter (·.is_complete) else d.matches'

/-- The fixed stage order of `matchesByStage`. -/
def stageOrder : List String :=
  ["Group Stage", "Round of 16", "Quarter-finals", "Semi-finals", "3rd Place", "Final"]

/-- One entry of the grouped match view. -/
structure StageGroup where
  stage : String
  matches' : List MatchStatus
deriving DecidableEq, Repr

/-- The group `matchesByStage` emits for one stage: the filtered matches with
that stage, in list order (the JS loop buckets them in iteration order),
sorted by date with the comparator
`(a.date || "").localeCompare(b.date || "")` (modelled as code-point order;
`Array.prototype.sort` is stable, as is `mergeSort`); no group when the
stage has no match. -/
def stageBucket (fm : List MatchStatus) (s : String) : Option StageGroup :=
  let g := fm.filter fun m => m.stage == s
  if g.isEmpty then none
  else some ⟨s, g.mergeSort fun a b => decide (jsOrOpt a.date "" ≤ jsOrOpt b.date "")⟩

/-- `matchesByStage` computed of `DataManager.vue` (lines 91-108): for each
stage of the fixed `stageOrder` that has at least one filtered match, its
bucket.  Stages outside `stageOrder` never reach the output. -/
def matchesByStage (dataStatus : Option DataStatus) (showOnlyCached : Bool) :
    List StageGroup :=
  stageOrder.filterMap (stageBucket (filteredMatches dataStatus showOnlyCached))

/-! ## Concrete inputs used by the worked examples and witnesses -/

/-- An action with a movement type but a missing end coordinate (and no point
coordinate): required geometry is absent. -/
def missingCoordsAction : PitchVizData :=
  { action_type := some "pass", player_name := some "Enzo Fernandez",
    start_coords := some [10, 10], end_coords := none, coords := none,
    outcome := some "complete", team_color := none }

/-- A shot action carrying no coordinates at all. -/
def exShotNoCoords : PitchVizData :=
  { action_type := some "shot", player_name := some "Julian Alvarez",
    start_coords := none, end_coords := none, coords := none,
    outcome := some "saved", team_color := some "#75aadb" }

/-- An action whose outcome is a mixed-case success word. -/
def exGoalAction : PitchVizData :=
  { action_type := some "shot", player_name := some "Lionel Messi",
    start_coords := none, end_coords := none, coords := some [110, 38],
    outcome := some "GoAl", team_color := some "#75aadb" }

/-- An action with an unrecognized non-empty outcome. -/
def exBananaAction : PitchVizData :=
  { action_type := some "pass", player_name := some "Rodrigo De Paul",
    start_coords := some [30, 40], end_coords := some [50, 44], coords := none,
    outcome := some "banana", team_color := some "#75aadb" }

/-- Five position samples (so `minute 12` selects index `12 % 5 = 2`). -/
def exPositions5 : List PlayerPosition :=
  [⟨5, 5, "Pass"⟩, ⟨12, 8, "Shot"⟩, ⟨33, 27, "Pass"⟩, ⟨47, 55, "Carry"⟩, ⟨80, 63, "Pass"⟩]

/-- A moment with `highlight_score = -0.4`, `minute = 12` and no
`pitch_viz_data`. -/
def exMomentNeg : Moment :=
  { time_display := "12:00", event_type := "Pass", description := "misplaced pass",
    highlight_score := -0.4, value_added := -0.4, minute := 12, pitch_viz_data := none }

/-- Highlights at minutes 10 and 80, one lowlight at minute 45, and a
`pass_accuracy` of `"73%"`. -/
def exAnalysis : PlayerAnalysis :=
  { player_name := "Lionel Messi"
    stats := { name := "Lionel Messi", total_highlight_score := 6, total_value_added := 1,
               total_actions := 50, positive_contributions := 20, negative_contributions := 5,
               highlights_count := 2, lowlights_count := 1, pass_accuracy := "73%",
               shots := 3, goals := 1 }
    top_highlights :=
      [{ time_display := "10:00", event_type := "Pass", description := "key pass",
         highlight_score := 1, value_added := 1, minute := 10, pitch_viz_data := none },
       { time_display := "80:00", event_type := "Shot", description := "goal",
         highlight_score := 2, value_added := 2, minute := 80, pitch_viz_data := none }]
    areas_for_improvement :=
      [{ time_display := "45:00", event_type := "Pass", description := "turnover",
         highlight_score := -1, value_added := -1, minute := 45, pitch_viz_data := none }]
    all_positions := [] }

/-- The same analysis with `pass_accuracy` reported as `"N/A"`. -/
def exAnalysisNA : PlayerAnalysis :=
  { exAnalysis with stats := { exAnalysis.stats with pass_accuracy := "N/A" } }

/-- A state in which a player is already selected. -/
def exPriorState : PlayerModeState :=
  { players := [], selectedPlayerName := "Lionel Messi", selectedTeam := "Argentina" }

/-- A players payload whose first team's first player differs from the
selection already present in `exPriorState`. -/
def exPayload : PlayersPayload :=
  { players := [{ player_id := 3009, player_name := "Kylian Mbappe", player_nickname := none,
                  jersey_number := 10, team := "France", position := some "Center Forward" }]
    teams := ["France"] }

/-- A tab-controller state (opaque payloads instantiated at `Unit`) whose
momentum slot is already populated. -/
def exTabState : TabState Unit :=
  { activeTab := .score, matchId := some 3869685, teams := ["Argentina", "France"],
    selectedTeam := "Argentina", momentumData := some (), scoreImpactData := none,
    setPieceData := none, passingNetworkData := none, pressingData := none,
    substitutionData := none }

/-- A Group Stage match with cached data. -/
def exGroupMatch : MatchStatus :=
  { match_id := 3857300, match_title := "Argentina vs Saudi Arabia",
    label := "Argentina vs Saudi Arabia", stage := "Group Stage",
    date := some "2022-11-22", teams := ["Argentina", "Saudi Arabia"],
    has_events := true, has_lineups := true, is_complete := true,
    events_size_kb := 3100, lineups_size_kb := 40, total_size_kb := 3140 }

/-- A match whose stage is outside the fixed stage list. -/
def exOddStageMatch : MatchStatus :=
  { match_id := 9999999, match_title := "Argentina vs Exhibition XI",
    label := "Argentina vs Exhibition XI", stage := "Exhibition",
    date := some "2022-11-10", teams := ["Argentina", "Exhibition XI"],
    has_events := false, has_lineups := false, is_complete := false,
    events_size_kb := 0, lineups_size_kb := 0, total_size_kb := 0 }

/-- A data status holding the two matches above. -/
def exDataStatus : DataStatus :=
  { competition := "wc2022", competition_name := "FIFA World Cup 2022",
    total_matches := 2, cached_matches := 1, missing_matches := 1,
    statsbomb_available := true, all_teams := ["Argentina", "France"],
    matches' := [exGroupMatch, exOddStageMatch] }

/-! ## Helper lemmas -/

theorem jsOr_empty_default (s : String) : jsOr s "" = s := by
  unfold jsOr
  split <;> simp_all

theorem jsOrOpt_some_empty (s : String) : jsOrOpt (some s) "" = s := by
  simp [jsOrOpt, jsOr_empty_default]

theorem jsOrOpt_none (d : String) : jsOrOpt none d = d := rfl

theorem jsOrOpt_some (s d : String) : jsOrOpt (some s) d = if s = "" then d else s := rfl

theorem toLowerCaseJs_ne_empty (s : String) (h : s ≠ "") : toLowerCaseJs s ≠ "" := by
  intro hc
  apply h
  have hd : s.data.map Char.toLower = [] := congrArg String.data hc
  cases s with
  | mk data =>
    cases data with
    | nil => rfl
    | cons c cs => simp at hd

theorem filter_isEmpty_eq_not_any {α : Type} (p : α → Bool) (l : List α) :
    (l.filter p).isEmpty = !(l.any p) := by
  induction l with
  | nil => simp
  | cons a l ih =>
    by_cases h : p a <;> simp [List.filter_cons, h, ih]

/-! ## Theorems for the Pitch Renderer claims -/

/-- C4: for every active action whose outcome string, lower-cased, is one of
"goal", "complete", "won", "success" (in any letter case), `isSuccess` is
true; for every other non-empty outcome string, `isSuccess` is false. -/
theorem isSuccess_classification (a : PitchVizData) (s : String) (hs : a.outcome = some s) :
    (toLowerCaseJs s ∈ successOutcomes → isSuccess (some a) = true) ∧
    (s ≠ "" → toLowerCaseJs s ∉ successOutcomes → isSuccess (some a) = false) := by
  constructor
  · intro h
    simp [isSuccess, hs, jsOrOpt_some_empty, h]
  · intro _ h
    simp [isSuccess, hs, jsOrOpt_some_empty, h]

/-- C4 witness: outcome "GoAl" is a success in mixed case; outcome "banana" is
non-empty and unrecognized, hence not a success. -/
theorem isSuccess_classification_witness :
    isSuccess (some exGoalAction) = true ∧ isSuccess (some exBananaAction) = false :=
  ⟨(isSuccess_classification exGoalAction "GoAl" rfl).1 (by decide),
   (isSuccess_classification exBananaAction "banana" rfl).2 (by decide) (by decide)⟩

/-- C5: for every active action, `actionColor` is one of the four fixed
colors (success green `#22c55e`, failure red `#ef4444`, neutral blue
`#3b82f6`, default teal `#06b6d4`) or the action's own team color; a
success-word outcome such as "GOAL" yields the green, an empty outcome yields
the team color or the default teal, every non-empty outcome that is neither a
success word nor "saved"/"blocked" — any unrecognized string such as
"banana" — yields the failure red catch-all, and "saved" / "blocked" yield
the blue. -/
theorem actionColor_classification (a : PitchVizData) :
    (actionColor (some a) ∈ ["#22c55e", "#ef4444", "#3b82f6", "#06b6d4"] ∨
      (∃ c, a.team_color = some c ∧ actionColor (some a) = c)) ∧
    (toLowerCaseJs (jsOrOpt a.outcome "") ∈ successOutcomes →
      actionColor (some a) = "#22c55e") ∧
    (jsOrOpt a.outcome "" = "" →
      actionColor (some a) = jsOrOpt a.team_color "#06b6d4") ∧
    (jsOrOpt a.outcome "" ≠ "" →
      toLowerCaseJs (jsOrOpt a.outcome "") ∉ successOutcomes →
      toLowerCaseJs (jsOrOpt a.outcome "") ∉ neutralOutcomes →
      actionColor (some a) = "#ef4444") ∧
    (a.outcome = some "banana" → actionColor (some a) = "#ef4444") ∧
    ((a.outcome = some "saved" ∨ a.outcome = some "blocked") →
      actionColor (some a) = "#3b82f6") := by
  refine ⟨?_, ?_, ?_, ?_, ?_, ?_⟩
  · by_cases h1 : toLowerCaseJs (jsOrOpt a.outcome "") ∈ successOutcomes
    · left
      simp [actionColor, h1]
    · by_cases h2 : toLowerCaseJs (jsOrOpt a.outcome "") ∈ failureOutcomes
      · left
        simp [actionColor, h1, h2]
      · by_cases h3 : toLowerCaseJs (jsOrOpt a.outcome "") ∈ neutralOutcomes
        · left
          simp [actionColor, h1, h2, h3]
        · by_cases h4 : toLowerCaseJs (jsOrOpt a.outcome "") = ""
          · rcases ht : a.team_color with _ | c
            · left
              simp [actionColor, h1, h2, h3, h4, ht, jsOrOpt_none, successOutcomes,
                failureOutcomes, neutralOutcomes]
            · by_cases hc : c = ""
              · left
                simp [actionColor, h1, h2, h3, h4, ht, jsOrOpt_some, hc, successOutcomes,
                  failureOutcomes, neutralOutcomes]
              · right
                refine ⟨c, rfl, ?_⟩
                simp [actionColor, h1, h2, h3, h4, ht, jsOrOpt_some, hc, successOutcomes,
                  failureOutcomes, neutralOutcomes]
          · left
            simp [actionColor, h1, h2, h3, h4]
  · intro h
    simp [actionColor, h]
  · intro h
    have h0 : toLowerCaseJs "" = "" := rfl
    simp [actionColor, h, h0, successOutcomes, failureOutcomes, neutralOutcomes]
  · intro h0 h1 h3
    by_cases h2 : toLowerCaseJs (jsOrOpt a.outcome "") ∈ failureOutcomes
    · simp [actionColor, h1, h2]
    · have hne := toLowerCaseJs_ne_empty _ h0
      simp [actionColor, h1, h2, h3, hne]
  · intro h
    have h1 : toLowerCaseJs "banana" = "banana" := rfl
    simp [actionColor, h, jsOrOpt_some_empty, h1, successOutcomes, failureOutcomes,
      neutralOutcomes]
  · intro h
    rcases h with h | h
    · have h1 : toLowerCaseJs "saved" = "saved" := rfl
      simp [actionColor, h, jsOrOpt_some_empty, h1, successOutcomes, failureOutcomes,
        neutralOutcomes]
    · have h1 : toLowerCaseJs "blocked" = "blocked" := rfl
      simp [actionColor, h, jsOrOpt_some_empty, h1, successOutcomes, failureOutcomes,
        neutralOutcomes]

/-- C5 witness: outcome "GoAl" yields the success green and outcome "banana"
yields the failure red. -/
theorem actionColor_classification_witness :
    actionColor (some exGoalAction) = "#22c55e" ∧
    actionColor (some exBananaAction) = "#ef4444" :=
  ⟨(actionColor_classification exGoalAction).2.1 (by decide),
   (actionColor_classification exBananaAction).2.2.2.1 (by decide) (by decide) (by decide)⟩

/-- C9 counterexample: a pass action whose `end_coords` is missing (and which
has no point `coords`) is not drawn at all — the renderer falls through to
the empty-state caption instead of defaulting the missing coordinate to the
pitch center and drawing the action. -/
theorem renderMode_missingCoords_counterexample :
    renderMode (some missingCoordsAction) [] = RenderMode.emptyState "Select a player" ∧
    renderMode (some missingCoordsAction) [] ≠ RenderMode.movement ∧
    renderMode (some missingCoordsAction) [] ≠ RenderMode.point := by
  refine ⟨?_, ?_, ?_⟩ <;> decide

/-- C9 (amended): the renderer never fails on missing geometry — it is a
total function — but an active action missing its required coordinates is
not drawn with defaults; the empty-state caption is rendered instead
("Click a moment below" when position samples exist, else
"Select a player"). -/
theorem renderMode_missingCoords (a : PitchVizData) (ps : List PlayerPosition)
    (h : hasDrawableCoords (some a) = false) :
    renderMode (some a) ps =
      RenderMode.emptyState
        (if ps.length > 0 then "Click a moment below" else "Select a player") := by
  simp only [hasDrawableCoords, Bool.or_eq_false_iff, Bool.and_eq_false_iff] at h
  obtain ⟨hse, hc⟩ := h
  unfold renderMode
  rcases hse with hse | hse
  · rcases hc with hc | hc
    · simp [hasMovement, hse, hc]
    · simp [hasMovement, hse, hc]
  · rcases hc with hc | hc
    · simp [hasMovement, hse, hc]
    · simp [hasMovement, hse, hc]

/-- C9 witness: a shot action carrying no coordinates at all, with a
non-empty position sample, renders the "Click a moment below" caption. -/
theorem renderMode_missingCoords_witness :
    hasDrawableCoords (some exShotNoCoords) = false ∧
    renderMode (some exShotNoCoords) exPositions5 =
      RenderMode.emptyState "Click a moment below" := by
  refine ⟨by decide, ?_⟩
  rw [renderMode_missingCoords exShotNoCoords exPositions5 (by decide)]
  decide

/-- C3: the synthesized fallback visualization indexes the position samples
with `minute % max 1 (length of allPositions)` (pitch center `(60, 40)` when
the samples are empty), is positive iff the impact tag is "positive" or the
highlight score is positive, and is assigned outcome "complete" with the
green team color when positive, else outcome "incomplete" with the red team
color. -/
theorem makeFallbackVizData_spec (ps : List PlayerPosition) (impact : Option String)
    (m : Moment) :
    (makeFallbackVizData ps impact m).action_type = some "other" ∧
    (∀ p, ps.get? (m.minute % max 1 ps.length) = some p →
      (makeFallbackVizData ps impact m).coords = some [p.x, p.y]) ∧
    (ps = [] → (makeFallbackVizData ps impact m).coords = some [60, 40]) ∧
    ((impact = some "positive" ∨ m.highlight_score > 0) →
      (makeFallbackVizData ps impact m).outcome = some "complete" ∧
      (makeFallbackVizData ps impact m).team_color = some "#22c55e") ∧
    (¬(impact = some "positive" ∨ m.highlight_score > 0) →
      (makeFallbackVizData ps impact m).outcome = some "incomplete" ∧
      (makeFallbackVizData ps impact m).team_color = some "#ef4444") := by
  refine ⟨rfl, ?_, ?_, ?_, ?_⟩
  · intro p hp
    rw [List.get?_eq_getElem?] at hp
    simp [makeFallbackVizData, hp]
  · intro hps
    subst hps
    simp [makeFallbackVizData]
  · intro h
    have hb : ((impact == some "positive") || decide (m.highlight_score > 0)) = true := by
      rcases h with h | h
      · simp [h]
      · simp [h]
    constructor <;> simp [makeFallbackVizData, hb]
  · intro h
    push_neg at h
    have hb : ((impact == some "positive") || decide (m.highlight_score > 0)) = false := by
      simp [h.1, h.2]
    constructor <;> simp [makeFallbackVizData, hb]

/-- C3 witness: for `highlight_score = -0.4`, five position samples and
`minute = 12`, the synthesized action selects sample index `12 % 5 = 2`
(here `(33, 27)`) and gets outcome "incomplete" with the red team color. -/
theorem makeFallbackVizData_witness :
    (makeFallbackVizData exPositions5 none exMomentNeg).coords = some [33, 27] ∧
    (makeFallbackVizData exPositions5 none exMomentNeg).outcome = some "incomplete" ∧
    (makeFallbackVizData exPositions5 none exMomentNeg).team_color = some "#ef4444" := by
  have h := makeFallbackVizData_spec exPositions5 none exMomentNeg
  have hneg : ¬((none : Option String) = some "positive" ∨
      exMomentNeg.highlight_score > 0) := by
    push_neg
    refine ⟨by simp, ?_⟩
    norm_num [exMomentNeg]
  refine ⟨h.2.1 ⟨33, 27, "Pass"⟩ ?_, (h.2.2.2.2 hneg).1, (h.2.2.2.2 hneg).2⟩
  norm_num [exPositions5, exMomentNeg]

unseal List.merge List.mergeSort in
/-- C6: `criticalMoments` consists of exactly the highlights tagged
`impact = "positive"` together with the lowlights tagged
`impact = "negative"` (a permutation of the tagged concatenation), ordered by
descending minute; for highlights at minutes 10 and 80 and a lowlight at 45,
the resulting minute order is `[80, 45, 10]`. -/
theorem criticalMoments_spec (a : PlayerAnalysis) :
    (criticalMoments (some a)).Perm
      (a.top_highlights.map tagHighlight ++ a.areas_for_improvement.map tagLowlight) ∧
    (criticalMoments (some a)).Pairwise
      (fun x y => y.moment.minute ≤ x.moment.minute) ∧
    (criticalMoments (some exAnalysis)).map (fun c => c.moment.minute) = [80, 45, 10] := by
  refine ⟨List.mergeSort_perm _ _, ?_, ?_⟩
  · have h := @List.sorted_mergeSort CriticalMoment
      (fun x y => decide (y.moment.minute ≤ x.moment.minute))
      (fun x y z h1 h2 => by
        simp only [decide_eq_true_eq] at *
        omega)
      (fun x y => by
        simpa using Nat.le_total y.moment.minute x.moment.minute)
      (a.top_highlights.map tagHighlight ++ a.areas_for_improvement.map tagLowlight)
    exact h.imp fun hxy => by simpa using hxy
  · rfl

/-- C7: `passReliability` is the parsed integer percentage of `pass_accuracy`
divided by 10, and it is null exactly when `pass_accuracy` is absent (empty)
or "N/A"; in particular "73%" gives 7.3 and "N/A" gives null. -/
theorem passReliability_spec (a : PlayerAnalysis) :
    ((performanceBreakdown (some a)).map (fun pb => pb.passReliability) = some none ↔
      (a.stats.pass_accuracy = "" ∨ a.stats.pass_accuracy = "N/A")) ∧
    (a.stats.pass_accuracy ≠ "" → a.stats.pass_accuracy ≠ "N/A" →
      (performanceBreakdown (some a)).map (fun pb => pb.passReliability) =
        some (some (((parseIntJs a.stats.pass_accuracy).getD 0 : ℚ) / 10))) ∧
    (performanceBreakdown (some exAnalysis)).map (fun pb => pb.passReliability) =
      some (some 7.3) ∧
    (performanceBreakdown (some exAnalysisNA)).map (fun pb => pb.passReliability) =
      some none := by
  refine ⟨?_, ?_, ?_, ?_⟩
  · by_cases h1 : a.stats.pass_accuracy = ""
    · simp [performanceBreakdown, h1]
    · by_cases h2 : a.stats.pass_accuracy = "N/A"
      · simp [performanceBreakdown, h1, h2]
      · simp [performanceBreakdown, h1, h2]
  · intro h1 h2
    simp [performanceBreakdown, h1, h2]
  · have hp : parseIntJs "73%" = some 73 := by decide
    have hacc : exAnalysis.stats.pass_accuracy = "73%" := rfl
    simp [performanceBreakdown, hacc, hp]
    norm_num
  · have hacc : exAnalysisNA.stats.pass_accuracy = "N/A" := rfl
    simp [performanceBreakdown, hacc]

/-- C7 witness: applied to the concrete analysis with `pass_accuracy = "73%"`
(non-empty and not "N/A"), the derivation yields the parsed percentage over
ten. -/
theorem passReliability_witness :
    (performanceBreakdown (some exAnalysis)).map (fun pb => pb.passReliability) =
      some (some (((parseIntJs exAnalysis.stats.pass_accuracy).getD 0 : ℚ) / 10)) :=
  (passReliability_spec exAnalysis).2.1 (by decide) (by decide)

/-- C8 counterexample: a player ("Lionel Messi") is already selected, yet a
successful players fetch still replaces the selection with the first player
of the first team of the payload — the existing selection is not left
unchanged, contrary to the claim. -/
theorem onPlayersFetchSuccess_counterexample :
    exPriorState.selectedPlayerName ≠ "" ∧
    (onPlayersFetchSuccess exPriorState exPayload).selectedPlayerName ≠
      exPriorState.selectedPlayerName ∧
    (onPlayersFetchSuccess exPriorState exPayload).selectedPlayerName = "Kylian Mbappe" := by
  refine ⟨?_, ?_, ?_⟩ <;> decide

/-- C8 (amended): on players-fetch success, whenever the first team of the
payload has a first player, that player is auto-selected unconditionally —
overwriting any existing selection — and the team filter is set to that
(first) team; the selection is only left unchanged when no player of the
payload belongs to the first team (or the teams list is empty). -/
theorem onPlayersFetchSuccess_spec (st : PlayerModeState) (data : PlayersPayload)
    (t : String) (p : PlayerInfo)
    (ht : data.teams.head? = some t)
    (hp : data.players.find? (fun q => q.team == t) = some p) :
    (onPlayersFetchSuccess st data).selectedPlayerName = p.player_name ∧
    (onPlayersFetchSuccess st data).selectedTeam = t ∧
    (onPlayersFetchSuccess st data).players = data.players := by
  refine ⟨?_, ?_, ?_⟩ <;> simp [onPlayersFetchSuccess, ht, hp]

/-- C8 witness: the concrete payload has first team "France" whose first
player is "Kylian Mbappe"; the handler selects them and stores the players. -/
theorem onPlayersFetchSuccess_witness :
    (onPlayersFetchSuccess exPriorState exPayload).selectedPlayerName = "Kylian Mbappe" ∧
    (onPlayersFetchSuccess exPriorState exPayload).selectedTeam = "France" ∧
    (onPlayersFetchSuccess exPriorState exPayload).players = exPayload.players := by
  have h := onPlayersFetchSuccess_spec exPriorState exPayload "France"
    { player_id := 3009, player_name := "Kylian Mbappe", player_nickname := none,
      jersey_number := 10, team := "France", position := some "Center Forward" }
    (by decide) (by decide)
  exact h

/-- C1 counterexample: a change of the match id to `0` — a non-null value —
still nulls the slots, but `fetchMomentum` returns at its
`if (!props.matchId) return` guard (`0` is falsy in JS), so zero requests
are issued rather than exactly one momentum fetch. -/
theorem onMatchIdChange_counterexample :
    (onMatchIdChange exTabState (some 0)).2 = [] ∧
    (onMatchIdChange exTabState (some 0)).2 ≠ [ApiRequest.momentum 0 5] ∧
    (onMatchIdChange exTabState (some 0)).1.momentumData = none := by
  refine ⟨?_, ?_, ?_⟩ <;> decide

/-- C1 (amended): when the match id changes to a non-null value, all six
analytics cache slots are nulled; when that value is also nonzero (a truthy
JS number), exactly one request is issued immediately — the momentum fetch
(with `interval_minutes = 5`) — and none of the other five endpoints is
requested by this event.  (On a change to the falsy id `0` the slots are
still cleared but no fetch is issued.) -/
theorem onMatchIdChange_spec {α : Type} (st : TabState α) (m : ℕ) (hm : m ≠ 0) :
    (onMatchIdChange st (some m)).1.momentumData = none ∧
    (onMatchIdChange st (some m)).1.scoreImpactData = none ∧
    (onMatchIdChange st (some m)).1.setPieceData = none ∧
    (onMatchIdChange st (some m)).1.passingNetworkData = none ∧
    (onMatchIdChange st (some m)).1.pressingData = none ∧
    (onMatchIdChange st (some m)).1.substitutionData = none ∧
    (onMatchIdChange st (some m)).2 = [ApiRequest.momentum m 5] := by
  refine ⟨rfl, rfl, rfl, rfl, rfl, rfl, ?_⟩
  simp [onMatchIdChange, clearAllSlots, fetchMomentumReq, hm]

/-- C1 witness: at the concrete nonzero match id 3869685 the event clears the
momentum slot and issues exactly the momentum request. -/
theorem onMatchIdChange_witness :
    (onMatchIdChange exTabState (some 3869685)).1.momentumData = none ∧
    (onMatchIdChange exTabState (some 3869685)).2 =
      [ApiRequest.momentum 3869685 5] :=
  ⟨(onMatchIdChange_spec exTabState 3869685 (by decide)).1,
   (onMatchIdChange_spec exTabState 3869685 (by decide)).2.2.2.2.2.2⟩

/-- C2: activating a tab whose cache slot is already populated issues zero
network requests, and a request is issued on tab activation only when the
activated tab's slot is null. -/
theorem onActiveTabChange_spec {α : Type} (st : TabState α) (tab : AnalyticsTab) :
    (slotOf st tab ≠ none → (onActiveTabChange st tab).2 = []) ∧
    ((onActiveTabChange st tab).2 ≠ [] → slotOf st tab = none) := by
  cases tab <;>
    · constructor
      · intro h
        simp only [slotOf] at h
        simp [onActiveTabChange, Option.isNone_iff_eq_none, h]
      · intro h
        by_contra hs
        simp only [slotOf] at hs
        simp [onActiveTabChange, Option.isNone_iff_eq_none, hs] at h

/-- C2 witness: a state whose momentum slot is populated issues no request
when the momentum tab is activated. -/
theorem onActiveTabChange_witness :
    slotOf exTabState AnalyticsTab.momentum ≠ none ∧
    (onActiveTabChange exTabState AnalyticsTab.momentum).2 = [] :=
  ⟨by decide, (onActiveTabChange_spec exTabState AnalyticsTab.momentum).1 (by decide)⟩

theorem stageBucket_eq_none_of_not_any (fm : List MatchStatus) (s : String)
    (h : fm.any (fun m => m.stage == s) = false) : stageBucket fm s = none := by
  unfold stageBucket
  simp [filter_isEmpty_eq_not_any, h]

theorem stageBucket_eq_some_of_any (fm : List MatchStatus) (s : String)
    (h : fm.any (fun m => m.stage == s) = true) :
    stageBucket fm s =
      some ⟨s, (fm.filter (fun m => m.stage == s)).mergeSort
        (fun a b => decide (jsOrOpt a.date "" ≤ jsOrOpt b.date ""))⟩ := by
  unfold stageBucket
  simp [filter_isEmpty_eq_not_any, h]

theorem stageBucket_some_spec (fm : List MatchStatus) (s : String) (g : StageGroup)
    (h : stageBucket fm s = some g) :
    g.stage = s ∧ ∀ m, m ∈ g.matches' ↔ (m ∈ fm ∧ m.stage = s) := by
  by_cases ha : fm.any (fun m => m.stage == s)
  · rw [stageBucket_eq_some_of_any fm s ha] at h
    obtain rfl : g = _ := (Option.some_inj.mp h).symm
    refine ⟨rfl, fun m => ?_⟩
    rw [List.mem_mergeSort, List.mem_filter]
    simp
  · rw [stageBucket_eq_none_of_not_any fm s (by simpa using ha)] at h
    exact absurd h (by simp)

theorem filterMap_stageBucket_map_stage (fm : List MatchStatus) (l : List String) :
    ((l.filterMap (stageBucket fm)).map (fun g => g.stage)) =
      l.filter (fun s => fm.any (fun m => m.stage == s)) := by
  induction l with
  | nil => rfl
  | cons s l ih =>
    by_cases h : fm.any (fun m => m.stage == s)
    · rw [List.filterMap_cons, stageBucket_eq_some_of_any fm s h]
      simp [List.filter_cons, h, ih]
    · rw [List.filterMap_cons,
        stageBucket_eq_none_of_not_any fm s (by simpa using h)]
      simp [List.filter_cons, h, ih]

/-- C10: the grouped match view lists exactly the stages of the fixed order
(Group Stage, Round of 16, Quarter-finals, Semi-finals, 3rd Place, Final)
that have at least one filtered match, in that order; every grouped match
comes from the flat filtered list and sits under its own stage; every
filtered match whose stage is in the fixed list appears in a group; and a
filtered match whose stage is outside the list appears in no group while
remaining in the flat filtered list. -/
theorem matchesByStage_spec (ds : Option DataStatus) (cached : Bool) :
    ((matchesByStage ds cached).map (fun g => g.stage) =
      stageOrder.filter
        (fun s => (filteredMatches ds cached).any (fun m => m.stage == s))) ∧
    (∀ g ∈ matchesByStage ds cached, ∀ m ∈ g.matches',
      m ∈ filteredMatches ds cached ∧ m.stage = g.stage) ∧
    (∀ m ∈ filteredMatches ds cached, m.stage ∈ stageOrder →
      ∃ g ∈ matchesByStage ds cached, m ∈ g.matches') ∧
    (∀ m ∈ filteredMatches ds cached, m.stage ∉ stageOrder →
      ∀ g ∈ matchesByStage ds cached, m ∉ g.matches') := by
  refine ⟨filterMap_stageBucket_map_stage _ _, ?_, ?_, ?_⟩
  · intro g hg m hm
    obtain ⟨s, _, hb⟩ := List.mem_filterMap.mp hg
    obtain ⟨hgs, hmem⟩ := stageBucket_some_spec _ s g hb
    obtain ⟨hinf, hstage⟩ := (hmem m).mp hm
    exact ⟨hinf, by rw [hstage, hgs]⟩
  · intro m hm hs
    have ha : (filteredMatches ds cached).any (fun x => x.stage == m.stage) = true :=
      List.any_eq_true.mpr ⟨m, hm, by simp⟩
    refine ⟨⟨m.stage, (filteredMatches ds cached).filter (fun x => x.stage == m.stage)
        |>.mergeSort (fun a b => decide (jsOrOpt a.date "" ≤ jsOrOpt b.date ""))⟩, ?_, ?_⟩
    · exact List.mem_filterMap.mpr
        ⟨m.stage, hs, stageBucket_eq_some_of_any _ m.stage ha⟩
    · rw [List.mem_mergeSort, List.mem_filter]
      simp [hm]
  · intro m _ hs g hg hm
    obtain ⟨s, hsl, hb⟩ := List.mem_filterMap.mp hg
    obtain ⟨hgs, hmem⟩ := stageBucket_some_spec _ s g hb
    obtain ⟨_, hstage⟩ := (hmem m).mp hm
    exact hs (hstage ▸ hsl)

/-- C10 witness: in a status holding a "Group Stage" match and an
"Exhibition" match, the former appears in a group while the latter, whose
stage is outside the fixed list, appears in no group (yet is still in the
flat filtered list). -/
theorem matchesByStage_witness :
    exOddStageMatch ∈ filteredMatches (some exDataStatus) false ∧
    (∃ g ∈ matchesByStage (some exDataStatus) false, exGroupMatch ∈ g.matches') ∧
    (∀ g ∈ matchesByStage (some exDataStatus) false, exOddStageMatch ∉ g.matches') :=
  ⟨by decide,
   (matchesByStage_spec (some exDataStatus) false).2.2.1 exGroupMatch (by decide) (by decide),
   (matchesByStage_spec (some exDataStatus) false).2.2.2 exOddStageMatch (by decide) (by decide)⟩

end ICHack
